import Mathlib

/-!
Shallow embedding of the governance contract in
`src/contracts/gov/src/contract.rs` (a CosmWasm contract), together with
proofs of the poll-lifecycle properties.

Modelling conventions:
* `Uint128` / `u64` quantities are modelled as `Nat` (the contract uses
  checked arithmetic: additions that cannot overflow for reachable values,
  and `checked_sub` which is modelled explicitly as a fallible operation).
* `Decimal` (cosmwasm fixed-point with 18 fractional digits) is modelled by
  its atomic integer value: `ratioToDecimal n d = n * 10^18 / d`, and
  `Decimal::from_ratio` panics when the denominator is zero, which is
  modelled as an explicit `panic` error outcome.
* Addresses (`CanonicalAddr` / human addresses) are modelled as `String`;
  `addr_canonicalize` / `addr_humanize` are the identity (address
  validation is an external collaborator).  The unset token address
  `CanonicalAddr::from(vec![])` is the empty string.
* The external token-balance oracle (`query_token_balance`) is a `Nat`
  parameter `oracleBalance` giving the balance the oracle reports for the
  governance contract at this instant.
* Storage buckets become total/partial maps inside a `Storage` record; each
  Rust store write becomes an explicit functional update.  Each entry point
  is embedded as a *raw* function `Storage → Storage × Except ContractError
  Response` that threads every intermediate write exactly where the Rust
  code performs it; the CosmWasm host additionally reverts all writes of a
  transaction that returns an error, which is modelled by the `tx` wrapper.
-/

namespace Gov

/-- Addresses: `CanonicalAddr` and humanized addresses, identified. -/
abbrev Addr := String

/-- Number of atomic units in one `Decimal` (cosmwasm: 10^18). -/
def decimalFractional : Nat := 10 ^ 18

/-- Rust `Decimal::from_ratio(n, d)` as its atomic value `n * 10^18 / d`
(truncating division).  The Rust function panics when `d = 0`; callers in
this development branch on `d = 0` explicitly before calling this. -/
def ratioToDecimal (n d : Nat) : Nat := n * decimalFractional / d

/-- Rust `PollStatus` from the governance state module (statuses used by
`contract.rs`). -/
inductive PollStatus where
  | InProgress
  | Passed
  | Rejected
  | Executed
deriving DecidableEq, Repr

/-- Rust `VoteOption` (yes/no vote choice). -/
inductive VoteOption where
  | Yes
  | No
deriving DecidableEq, Repr

/-- String rendering of a vote option, used in the response attributes. -/
def VoteOption.render : VoteOption → String
  | .Yes => "yes"
  | .No => "no"

/-- Rust `VoterInfo`: the vote choice and committed token weight of one voter on
one poll. -/
structure VoterInfo where
  vote : VoteOption
  balance : Nat
deriving DecidableEq, Repr

/-- Rust `ExecuteData`: one execution action of a poll, with an explicit `order`
field, a target contract and an opaque payload. -/
structure ExecuteData where
  order : Nat
  contract : Addr
  msg : String
deriving DecidableEq, Repr

/-- Rust `PollExecuteMsg`: the wire-level form of an action in `CreatePoll`
(target address not yet canonicalized). -/
structure PollExecuteMsg where
  order : Nat
  contract : Addr
  msg : String
deriving DecidableEq, Repr

/-- Rust `Poll` record, as created and mutated by `contract.rs`. -/
structure Poll where
  id : Nat
  creator : Addr
  status : PollStatus
  yes_votes : Nat
  no_votes : Nat
  end_height : Nat
  title : String
  description : String
  link : Option String
  execute_data : Option (List ExecuteData)
  deposit_amount : Nat
  total_balance_at_end_poll : Option Nat
  staked_amount : Option Nat
deriving DecidableEq, Repr

/-- Rust `Config` singleton.  `quorum` and `threshold` are `Decimal` atomic
values. -/
structure Config where
  whale_token : Addr
  owner : Addr
  quorum : Nat
  threshold : Nat
  voting_period : Nat
  timelock_period : Nat
  expiration_period : Nat
  proposal_deposit : Nat
  snapshot_period : Nat
deriving DecidableEq, Repr

/-- Global `State` singleton. -/
structure State where
  contract_addr : Addr
  poll_count : Nat
  total_share : Nat
  total_deposit : Nat
deriving DecidableEq, Repr

/-- Rust `TokenManager` (per-account bank record): convertible share balance and
the append-only locked-balance ledger. -/
structure TokenManager where
  share : Nat
  locked_balance : List (Nat × VoterInfo)
deriving DecidableEq, Repr

/-- Rust `TokenManager::default()` (used by `may_load(..).unwrap_or_default()`). -/
def TokenManager.empty : TokenManager := { share := 0, locked_balance := [] }

/-- The error taxonomy of `error.rs` as used by `contract.rs`, plus `std`
for propagated standard errors (store misses, `checked_sub` underflow) and
`panic` for aborts raised inside arithmetic helpers
(`Decimal::from_ratio` / `multiply_ratio` with a zero denominator). -/
inductive ContractError where
  | Unauthorized
  | InsufficientProposalDeposit (required : Nat)
  | PollNotFound
  | PollNotInProgress
  | PollVotingPeriod
  | PollNotPassed
  | TimelockNotExpired
  | AlreadyVoted
  | InsufficientStaked
  | NoExecuteData
  | DataShouldBeGiven
  | std (msg : String)
  | panic (msg : String)
deriving DecidableEq, Repr

/-- The payload of a dispatched `WasmMsg::Execute`: either a structured
cw20 `Transfer` (used for deposit refunds) or the opaque binary payload of
a poll action. -/
inductive Payload where
  | cw20Transfer (recipient : Addr) (amount : Nat)
  | raw (b : String)
deriving DecidableEq, Repr

/-- A dispatched message: `CosmosMsg::Wasm(WasmMsg::Execute ...)`.  Only
this variant is emitted by the contract. -/
structure WasmExec where
  contract_addr : Addr
  msg : Payload
  funds : List (Addr × Nat)
deriving DecidableEq, Repr

/-- Rust `Response`: emitted messages and event attributes. -/
structure Response where
  messages : List WasmExec
  attributes : List (String × String)
deriving DecidableEq, Repr

/-- Rust `Response::default()`. -/
def Response.empty : Response := { messages := [], attributes := [] }

/-- The durable stores of the contract, one field per logical bucket. -/
structure Storage where
  config : Config
  state : State
  polls : Nat → Option Poll
  poll_indexer : PollStatus → Nat → Bool
  poll_voter : Nat → Addr → Option VoterInfo
  bank : Addr → Option TokenManager

/-- Rust `poll_store(..).save(id, p)`. -/
def Storage.pollSave (s : Storage) (id : Nat) (p : Poll) : Storage :=
  { s with polls := fun id2 => if id2 = id then some p else s.polls id2 }

/-- Rust `poll_indexer_store(.., status).save(id, true)`. -/
def Storage.pollIndexerSave (s : Storage) (st : PollStatus) (id : Nat) : Storage :=
  { s with poll_indexer := fun st2 id2 =>
      if st2 = st ∧ id2 = id then true else s.poll_indexer st2 id2 }

/-- Rust `poll_indexer_store(.., status).remove(id)`. -/
def Storage.pollIndexerRemove (s : Storage) (st : PollStatus) (id : Nat) : Storage :=
  { s with poll_indexer := fun st2 id2 =>
      if st2 = st ∧ id2 = id then false else s.poll_indexer st2 id2 }

/-- Rust `state_store(..).save(state)`. -/
def Storage.stateSave (s : Storage) (st : State) : Storage := { s with state := st }

/-- Rust `config_store(..).save(config)`. -/
def Storage.configSave (s : Storage) (c : Config) : Storage := { s with config := c }

/-- Rust `poll_voter_store(.., poll_id).save(voter, info)`. -/
def Storage.pollVoterSave (s : Storage) (id : Nat) (voter : Addr) (vi : VoterInfo) :
    Storage :=
  { s with poll_voter := fun id2 v2 =>
      if id2 = id ∧ v2 = voter then some vi else s.poll_voter id2 v2 }

/-- Rust `bank_store(..).save(addr, tm)`. -/
def Storage.bankSave (s : Storage) (addr : Addr) (tm : TokenManager) : Storage :=
  { s with bank := fun a2 => if a2 = addr then some tm else s.bank a2 }

/-- Block environment: the current block height. -/
structure Env where
  height : Nat
deriving DecidableEq, Repr

/-- A raw entry-point outcome: the storage as left by the function body
(including writes performed before an error-return) together with the
returned result. -/
abbrev RawResult := Storage × Except ContractError Response

/-- The CosmWasm transaction boundary: the host reverts every store write
of an invocation that returns an error, so the observable post-state of a
failed call is the pre-state. -/
def tx (f : Storage → RawResult) (s : Storage) : RawResult :=
  match f s with
  | (s2, .ok r) => (s2, .ok r)
  | (_, .error e) => (s, .error e)

/-- Rust `register_contracts`: sets the governance token address, only while it
is still unset. -/
def registerContracts (s : Storage) (whale_token : Addr) : RawResult :=
  if s.config.whale_token ≠ "" then
    (s, .error .Unauthorized)
  else
    (s.configSave { s.config with whale_token := whale_token }, .ok Response.empty)

/-- Rust `create_poll`: allocates the next poll id, persists the new poll with
status `InProgress`, indexes it, and bumps the global counters. -/
def createPollRaw (s : Storage) (env : Env) (proposer : Addr) (deposit_amount : Nat)
    (title description : String) (link : Option String)
    (execute_msgs : Option (List PollExecuteMsg)) : RawResult :=
  let config := s.config
  if deposit_amount < config.proposal_deposit then
    (s, .error (.InsufficientProposalDeposit config.proposal_deposit))
  else
    let state := s.state
    let poll_id := state.poll_count + 1
    let state1 := { state with
      poll_count := state.poll_count + 1
      total_deposit := state.total_deposit + deposit_amount }
    let all_execute_data : Option (List ExecuteData) :=
      execute_msgs.map (List.map fun m =>
        { order := m.order, contract := m.contract, msg := m.msg })
    let new_poll : Poll := {
      id := poll_id
      creator := proposer
      status := .InProgress
      yes_votes := 0
      no_votes := 0
      end_height := env.height + config.voting_period
      title := title
      description := description
      link := link
      execute_data := all_execute_data
      deposit_amount := deposit_amount
      total_balance_at_end_poll := none
      staked_amount := none }
    let s1 := s.pollSave poll_id new_poll
    let s2 := s1.pollIndexerSave .InProgress poll_id
    let s3 := s2.stateSave state1
    (s3, .ok { messages := []
               attributes := [("action", "create_poll"),
                              ("creator", proposer),
                              ("poll_id", toString poll_id),
                              ("end_height", toString new_poll.end_height)] })

/-- The `(quorum, staked_weight)` computation of `end_poll`: quorum is
forced to zero when the global total share is zero; otherwise the reference
weight is the poll's snapshot when present as `staked_amount`, else the
live convertible balance `oracleBalance - total_deposit` (`checked_sub`,
underflow is a standard error).  `Decimal::from_ratio` panics when the
reference weight is zero. -/
def endPollQuorum (oracleBalance : Nat) (state : State) (p : Poll) :
    Except ContractError (Nat × Nat) :=
  let tallied_weight := p.yes_votes + p.no_votes
  if state.total_share = 0 then
    .ok (0, 0)
  else
    match p.staked_amount with
    | some staked_amount =>
        if staked_amount = 0 then
          .error (.panic "Denominator must not be zero")
        else
          .ok (ratioToDecimal tallied_weight staked_amount, staked_amount)
    | none =>
        if oracleBalance < state.total_deposit then
          .error (.std "Cannot Sub")
        else
          let staked_weight := oracleBalance - state.total_deposit
          if staked_weight = 0 then
            .error (.panic "Denominator must not be zero")
          else
            .ok (ratioToDecimal tallied_weight staked_weight, staked_weight)

/-- Rust `end_poll`: tallies an `InProgress` poll whose voting period is over,
computes the quorum/threshold outcome, refunds the deposit when quorum was
reached, decrements the global deposit accumulator, moves the poll in the
status index and stores the final status. -/
def endPollRaw (oracleBalance : Nat) (s : Storage) (env : Env) (poll_id : Nat) :
    RawResult :=
  match s.polls poll_id with
  | none => (s, .error (.std "Poll not found"))
  | some a_poll =>
    if a_poll.status ≠ .InProgress then
      (s, .error .PollNotInProgress)
    else if env.height < a_poll.end_height then
      (s, .error .PollVotingPeriod)
    else
      let no := a_poll.no_votes
      let yes := a_poll.yes_votes
      let tallied_weight := yes + no
      let config := s.config
      let state := s.state
      match endPollQuorum oracleBalance state a_poll with
      | .error e => (s, .error e)
      | .ok (quorum, staked_weight) =>
        let quorumFailed := tallied_weight = 0 ∨ quorum < config.quorum
        let passed := ¬ quorumFailed ∧ config.threshold
            < ratioToDecimal yes tallied_weight
        let poll_status : PollStatus := if passed then .Passed else .Rejected
        let rejected_reason : String :=
          if quorumFailed then "Quorum not reached"
          else if passed then "" else "Threshold not reached"
        let messages : List WasmExec :=
          if ¬ quorumFailed ∧ a_poll.deposit_amount ≠ 0 then
            [{ contract_addr := config.whale_token
               msg := .cw20Transfer a_poll.creator a_poll.deposit_amount
               funds := [] }]
          else []
        if s.state.total_deposit < a_poll.deposit_amount then
          (s, .error (.std "Cannot Sub"))
        else
          let state1 := { state with
            total_deposit := state.total_deposit - a_poll.deposit_amount }
          let s1 := s.stateSave state1
          let s2 := s1.pollIndexerRemove .InProgress a_poll.id
          let s3 := s2.pollIndexerSave poll_status a_poll.id
          let a_poll1 := { a_poll with
            status := poll_status
            total_balance_at_end_poll := some staked_weight }
          let s4 := s3.pollSave poll_id a_poll1
          (s4, .ok { messages := messages
                     attributes := [("action", "end_poll"),
                                    ("poll_id", toString poll_id),
                                    ("rejected_reason", rejected_reason),
                                    ("passed", if passed then "true" else "false")] })

/-- Modelled from the spec: the `Ord` instance of `ExecuteData` (defined in
the governance state module, which is not part of the visible sources)
orders entries by their `order` field, and `Vec::sort` is a stable sort, so
ties on `order` keep their original relative order.  `orderedInsert`-style
insertion of one entry into an already sorted list, placing the new entry
before the first entry whose `order` is not smaller. -/
def insertByOrder (a : ExecuteData) : List ExecuteData → List ExecuteData
  | [] => [a]
  | b :: l => if a.order ≤ b.order then a :: b :: l else b :: insertByOrder a l

/-- Modelled from the spec: `msgs.sort()` on the action list — a stable
sort by the `order` field, ascending. -/
def sortExecuteData : List ExecuteData → List ExecuteData
  | [] => []
  | a :: l => insertByOrder a (sortExecuteData l)

/-- Rust `execute_poll`: after the timelock, moves a `Passed` poll to
`Executed` (index and status writes happen *before* the action-list check,
so the `NoExecuteData` error leaves those raw writes behind — they are
undone by the host's transaction revert, see `tx`), then dispatches the
sorted action list. -/
def executePollRaw (s : Storage) (env : Env) (poll_id : Nat) : RawResult :=
  let config := s.config
  match s.polls poll_id with
  | none => (s, .error (.std "Poll not found"))
  | some a_poll =>
    if a_poll.status ≠ .Passed then
      (s, .error .PollNotPassed)
    else if env.height < a_poll.end_height + config.timelock_period then
      (s, .error .TimelockNotExpired)
    else
      let s1 := s.pollIndexerRemove .Passed poll_id
      let s2 := s1.pollIndexerSave .Executed poll_id
      let a_poll1 := { a_poll with status := .Executed }
      let s3 := s2.pollSave poll_id a_poll1
      match a_poll.execute_data with
      | some all_msgs =>
          let msgs := sortExecuteData all_msgs
          let messages := msgs.map fun m =>
            ({ contract_addr := m.contract, msg := .raw m.msg, funds := [] } : WasmExec)
          (s3, .ok { messages := messages
                     attributes := [("action", "execute_poll"),
                                    ("poll_id", toString poll_id)] })
      | none => (s3, .error .NoExecuteData)

/-- Rust `cast_vote`: validates the poll id, the poll's progress window, the
absence of a prior vote and the voter's convertible stake, then commits the
weight to the chosen tally, records the `VoterInfo` in the poll's voter map
and in the voter's locked-balance ledger, and captures the staked-amount
snapshot on the first qualifying vote inside the snapshot window.
`multiply_ratio` panics when `total_share` is zero. -/
def castVoteRaw (oracleBalance : Nat) (s : Storage) (env : Env) (sender : Addr)
    (poll_id : Nat) (vote : VoteOption) (amount : Nat) : RawResult :=
  let config := s.config
  let state := s.state
  if poll_id = 0 ∨ state.poll_count < poll_id then
    (s, .error .PollNotFound)
  else
    match s.polls poll_id with
    | none => (s, .error (.std "Poll not found"))
    | some a_poll =>
      if a_poll.status ≠ .InProgress ∨ a_poll.end_height < env.height then
        (s, .error .PollNotInProgress)
      else if (s.poll_voter poll_id sender).isSome then
        (s, .error .AlreadyVoted)
      else
        let token_manager := (s.bank sender).getD TokenManager.empty
        let total_share := state.total_share
        if oracleBalance < state.total_deposit then
          (s, .error (.std "Cannot Sub"))
        else
          let total_balance := oracleBalance - state.total_deposit
          if total_share = 0 then
            (s, .error (.panic "Denominator must not be zero"))
          else if token_manager.share * total_balance / total_share < amount then
            (s, .error .InsufficientStaked)
          else
            let a_poll1 :=
              if vote = .Yes then { a_poll with yes_votes := a_poll.yes_votes + amount }
              else { a_poll with no_votes := a_poll.no_votes + amount }
            let vote_info : VoterInfo := { vote := vote, balance := amount }
            let token_manager1 := { token_manager with
              locked_balance := token_manager.locked_balance ++ [(poll_id, vote_info)] }
            let s1 := s.bankSave sender token_manager1
            let s2 := s1.pollVoterSave poll_id sender vote_info
            let time_to_end := a_poll1.end_height - env.height
            let a_poll2 :=
              if time_to_end < config.snapshot_period ∧ a_poll1.staked_amount = none then
                { a_poll1 with staked_amount := some total_balance }
              else a_poll1
            let s3 := s2.pollSave poll_id a_poll2
            (s3, .ok { messages := []
                       attributes := [("action", "cast_vote"),
                                      ("poll_id", toString poll_id),
                                      ("amount", toString amount),
                                      ("voter", sender),
                                      ("vote_option", vote.render)] })

/-- The reference weight used for quorum when the global total share is
nonzero: the poll's snapshot when present, otherwise the live convertible
balance reported by the oracle minus the pending deposits. -/
def referenceWeight (oracleBalance : Nat) (state : State) (p : Poll) : Nat :=
  (p.staked_amount).getD (oracleBalance - state.total_deposit)

lemma endPollQuorum_ok (oracleBalance : Nat) (state : State) (p : Poll)
    (hshare : state.total_share ≠ 0)
    (hsub : state.total_deposit ≤ oracleBalance)
    (hr : referenceWeight oracleBalance state p ≠ 0) :
    endPollQuorum oracleBalance state p =
      .ok (ratioToDecimal (p.yes_votes + p.no_votes)
             (referenceWeight oracleBalance state p),
           referenceWeight oracleBalance state p) := by
  unfold endPollQuorum referenceWeight at *
  cases h : p.staked_amount with
  | some a =>
      rw [h] at hr
      simp only [Option.getD_some] at hr ⊢
      simp [hshare, hr]
  | none =>
      rw [h] at hr
      simp only [Option.getD_none] at hr ⊢
      simp [hshare, hr, Nat.not_lt.mpr hsub]

/-- C9: the governance token identity can be registered at most once:
while the token address is already set (non-empty), `register_contracts`
fails with `Unauthorized` and leaves the configuration (indeed the whole
storage) unchanged; it succeeds exactly when the token address is still
unset, writing the new token address. -/
theorem register_contracts_token_immutable :
    (∀ (s : Storage) (wt : Addr), s.config.whale_token ≠ "" →
       registerContracts s wt = (s, .error .Unauthorized)) ∧
    (∀ (s : Storage) (wt : Addr), s.config.whale_token = "" →
       registerContracts s wt =
         (s.configSave { s.config with whale_token := wt }, .ok Response.empty)) := by
  constructor
  · intro s wt h
    simp [registerContracts, h]
  · intro s wt h
    simp [registerContracts, h]

/-- Base configuration used by the concrete witnesses: quorum 0.4,
threshold 0.5 (as atomic decimal values), voting period 40, timelock 10,
snapshot period 20, proposal deposit 5. -/
def witConfig : Config :=
  { whale_token := "whale", owner := "owner", quorum := 4 * 10 ^ 17,
    threshold := 5 * 10 ^ 17, voting_period := 40, timelock_period := 10,
    expiration_period := 100, proposal_deposit := 5, snapshot_period := 20 }

/-- Witness for C9: with the token already registered, a second
registration is rejected; on a fresh configuration it succeeds. -/
theorem register_contracts_token_immutable_witness :
    registerContracts
      { config := witConfig,
        state := { contract_addr := "gov", poll_count := 0, total_share := 0,
                   total_deposit := 0 },
        polls := fun _ => none, poll_indexer := fun _ _ => false,
        poll_voter := fun _ _ => none, bank := fun _ => none } "tok" =
      ({ config := witConfig,
         state := { contract_addr := "gov", poll_count := 0, total_share := 0,
                    total_deposit := 0 },
         polls := fun _ => none, poll_indexer := fun _ _ => false,
         poll_voter := fun _ _ => none, bank := fun _ => none },
       .error .Unauthorized) :=
  register_contracts_token_immutable.1 _ "tok" (by decide)

/-- The poll used in the C1 witness: 70 yes / 30 no, snapshot 200. -/
def c1Poll : Poll :=
  { id := 1, creator := "alice", status := .InProgress, yes_votes := 70,
    no_votes := 30, end_height := 50, title := "t", description := "d",
    link := none, execute_data := none, deposit_amount := 10,
    total_balance_at_end_poll := none, staked_amount := some 200 }

/-- Storage for the C1 witness. -/
def c1Storage : Storage :=
  { config := witConfig,
    state := { contract_addr := "gov", poll_count := 1, total_share := 100,
               total_deposit := 10 },
    polls := fun id => if id = 1 then some c1Poll else none,
    poll_indexer := fun _ _ => false,
    poll_voter := fun _ _ => none,
    bank := fun _ => none }

/-- C1: for an `InProgress` poll whose voting period has elapsed,
`end_poll` succeeds and sets the status to `Rejected` when the tallied
weight is zero or the quorum ratio (tallied weight over the reference
weight) is strictly below `config.quorum` (reason "Quorum not reached");
otherwise the poll is `Passed` exactly when the yes-ratio strictly exceeds
`config.threshold`, and `Rejected` with reason "Threshold not reached"
otherwise. -/
theorem end_poll_outcome (oracleBalance : Nat) (s : Storage) (env : Env)
    (poll_id : Nat) (p : Poll)
    (hp : s.polls poll_id = some p)
    (hst : p.status = .InProgress)
    (hh : p.end_height ≤ env.height)
    (hshare : s.state.total_share ≠ 0)
    (hsub : s.state.total_deposit ≤ oracleBalance)
    (hr : referenceWeight oracleBalance s.state p ≠ 0)
    (hdep : p.deposit_amount ≤ s.state.total_deposit) :
    ∃ s2 resp,
      endPollRaw oracleBalance s env poll_id = (s2, .ok resp) ∧
      (s2.polls poll_id).map Poll.status =
        some (if p.yes_votes + p.no_votes = 0 ∨
                 ratioToDecimal (p.yes_votes + p.no_votes)
                   (referenceWeight oracleBalance s.state p) < s.config.quorum
              then PollStatus.Rejected
              else if s.config.threshold <
                     ratioToDecimal p.yes_votes (p.yes_votes + p.no_votes)
                   then PollStatus.Passed
                   else PollStatus.Rejected) ∧
      resp.attributes =
        [("action", "end_poll"), ("poll_id", toString poll_id),
         ("rejected_reason",
           if p.yes_votes + p.no_votes = 0 ∨
              ratioToDecimal (p.yes_votes + p.no_votes)
                (referenceWeight oracleBalance s.state p) < s.config.quorum
           then "Quorum not reached"
           else if s.config.threshold <
                  ratioToDecimal p.yes_votes (p.yes_votes + p.no_votes)
                then ""
                else "Threshold not reached"),
         ("passed",
           if ¬ (p.yes_votes + p.no_votes = 0 ∨
                 ratioToDecimal (p.yes_votes + p.no_votes)
                   (referenceWeight oracleBalance s.state p) < s.config.quorum) ∧
              s.config.threshold <
                ratioToDecimal p.yes_votes (p.yes_votes + p.no_votes)
           then "true" else "false")] := by
  have hnl : ¬ env.height < p.end_height := Nat.not_lt.mpr hh
  have hnd : ¬ s.state.total_deposit < p.deposit_amount := Nat.not_lt.mpr hdep
  dsimp only [endPollRaw]
  rw [hp]
  dsimp only
  rw [endPollQuorum_ok oracleBalance s.state p hshare hsub hr]
  simp only [hst, ne_eq, not_true_eq_false, if_false, hnl, hnd]
  refine ⟨_, _, rfl, ?_, ?_⟩
  · simp only [Storage.pollSave, Storage.pollIndexerSave, Storage.pollIndexerRemove,
      Storage.stateSave]
    simp only [if_true]
    dsimp only [Option.map]
    split_ifs <;> first | rfl | tauto
  · dsimp only
    split_ifs <;> first | rfl | tauto

/-- Witness for C1: with yes = 70, no = 30, snapshotted reference weight
200, quorum 0.4 and threshold 0.5, ending the poll yields `Passed`. -/
theorem end_poll_outcome_witness :
    ∃ s2 resp,
      endPollRaw 210 c1Storage ⟨50⟩ 1 = (s2, .ok resp) ∧
      (s2.polls 1).map Poll.status = some PollStatus.Passed ∧
      resp.attributes =
        [("action", "end_poll"), ("poll_id", "1"), ("rejected_reason", ""),
         ("passed", "true")] := by
  obtain ⟨s2, resp, h1, h2, h3⟩ :=
    end_poll_outcome 210 c1Storage ⟨50⟩ 1 c1Poll rfl rfl (by decide) (by decide)
      (by decide) (by decide) (by decide)
  refine ⟨s2, resp, h1, ?_, ?_⟩
  · rw [h2]; decide
  · rw [h3]; decide

/-- C3: whenever `end_poll` succeeds, the global deposit accumulator is
decremented by the poll's deposit (in every outcome), and the emitted
message list is exactly one full-deposit transfer back to the creator when
quorum was reached and the deposit is nonzero, and empty otherwise (in
particular no refund on a quorum failure). -/
theorem end_poll_deposit_refund (oracleBalance : Nat) (s : Storage) (env : Env)
    (poll_id : Nat) (p : Poll) (s2 : Storage) (resp : Response)
    (hp : s.polls poll_id = some p)
    (h : endPollRaw oracleBalance s env poll_id = (s2, .ok resp)) :
    ∃ q r, endPollQuorum oracleBalance s.state p = .ok (q, r) ∧
      p.deposit_amount ≤ s.state.total_deposit ∧
      s2.state.total_deposit = s.state.total_deposit - p.deposit_amount ∧
      resp.messages =
        (if ¬ (p.yes_votes + p.no_votes = 0 ∨ q < s.config.quorum) ∧
            p.deposit_amount ≠ 0
         then [{ contract_addr := s.config.whale_token
                 msg := .cw20Transfer p.creator p.deposit_amount
                 funds := [] }]
         else []) := by
  dsimp only [endPollRaw] at h
  rw [hp] at h
  dsimp only at h
  split at h
  · simp [Prod.ext_iff] at h
  split at h
  · simp [Prod.ext_iff] at h
  cases hQ : endPollQuorum oracleBalance s.state p with
  | error e =>
      rw [hQ] at h
      dsimp only at h
      simp [Prod.ext_iff] at h
  | ok qr =>
      obtain ⟨q, r⟩ := qr
      rw [hQ] at h
      dsimp only at h
      split at h
      next hnd => simp [Prod.ext_iff] at h
      next hnd =>
        rw [Prod.mk.injEq] at h
        obtain ⟨hs2, hresp⟩ := h
        rw [Except.ok.injEq] at hresp
        subst hs2
        subst hresp
        refine ⟨q, r, rfl, Nat.le_of_not_lt hnd, ?_, rfl⟩
        simp [Storage.pollSave, Storage.pollIndexerSave, Storage.pollIndexerRemove,
          Storage.stateSave]

/-- The poll used in the C3 witness: quorum reached (100 of 200) but
threshold missed (30% yes), so the poll is rejected yet the deposit is
refunded. -/
def c3Poll : Poll :=
  { id := 1, creator := "alice", status := .InProgress, yes_votes := 30,
    no_votes := 70, end_height := 50, title := "t", description := "d",
    link := none, execute_data := none, deposit_amount := 10,
    total_balance_at_end_poll := none, staked_amount := some 200 }

/-- Storage for the C3 witness. -/
def c3Storage : Storage :=
  { config := witConfig,
    state := { contract_addr := "gov", poll_count := 1, total_share := 100,
               total_deposit := 10 },
    polls := fun id => if id = 1 then some c3Poll else none,
    poll_indexer := fun _ _ => false,
    poll_voter := fun _ _ => none,
    bank := fun _ => none }

/-- The concrete response produced by ending the C3 witness poll: a
"Threshold not reached" rejection that still refunds the deposit. -/
def c3Resp : Response :=
  { messages := [{ contract_addr := "whale",
                   msg := .cw20Transfer "alice" 10, funds := [] }],
    attributes := [("action", "end_poll"), ("poll_id", "1"),
                   ("rejected_reason", "Threshold not reached"),
                   ("passed", "false")] }

/-- Witness for C3: ending the 30/70 poll rejects it on threshold but
refunds the deposit, and the deposit accumulator drops by the deposit. -/
theorem end_poll_deposit_refund_witness :
    ∃ q r, endPollQuorum 210 c3Storage.state c3Poll = .ok (q, r) ∧
      c3Poll.deposit_amount ≤ c3Storage.state.total_deposit ∧
      (endPollRaw 210 c3Storage ⟨50⟩ 1).1.state.total_deposit =
        c3Storage.state.total_deposit - c3Poll.deposit_amount ∧
      c3Resp.messages =
        (if ¬ (c3Poll.yes_votes + c3Poll.no_votes = 0 ∨ q < c3Storage.config.quorum) ∧
            c3Poll.deposit_amount ≠ 0
         then [{ contract_addr := c3Storage.config.whale_token
                 msg := .cw20Transfer c3Poll.creator c3Poll.deposit_amount
                 funds := [] }]
         else []) :=
  end_poll_deposit_refund 210 c3Storage ⟨50⟩ 1 c3Poll
    (endPollRaw 210 c3Storage ⟨50⟩ 1).1 c3Resp rfl rfl

/-- C8 (amended): the quorum computation of `end_poll` forces quorum and
reference weight to zero when the global total share is zero; otherwise it
divides the tallied weight by the reference weight (snapshot if present,
else live convertible balance) — but when that reference weight is zero it
aborts with a division panic (and a live-balance underflow aborts with a
standard error) instead of evaluating to zero. -/
theorem end_poll_quorum_reference (oracleBalance : Nat) (state : State) (p : Poll) :
    (state.total_share = 0 →
       endPollQuorum oracleBalance state p = .ok (0, 0)) ∧
    (state.total_share ≠ 0 → ∀ a, p.staked_amount = some a → a ≠ 0 →
       endPollQuorum oracleBalance state p =
         .ok (ratioToDecimal (p.yes_votes + p.no_votes) a, a)) ∧
    (state.total_share ≠ 0 → p.staked_amount = some 0 →
       endPollQuorum oracleBalance state p =
         .error (.panic "Denominator must not be zero")) ∧
    (state.total_share ≠ 0 → p.staked_amount = none →
       state.total_deposit ≤ oracleBalance →
       oracleBalance - state.total_deposit ≠ 0 →
       endPollQuorum oracleBalance state p =
         .ok (ratioToDecimal (p.yes_votes + p.no_votes)
                (oracleBalance - state.total_deposit),
              oracleBalance - state.total_deposit)) ∧
    (state.total_share ≠ 0 → p.staked_amount = none →
       state.total_deposit ≤ oracleBalance →
       oracleBalance - state.total_deposit = 0 →
       endPollQuorum oracleBalance state p =
         .error (.panic "Denominator must not be zero")) ∧
    (state.total_share ≠ 0 → p.staked_amount = none →
       oracleBalance < state.total_deposit →
       endPollQuorum oracleBalance state p = .error (.std "Cannot Sub")) := by
  refine ⟨?_, ?_, ?_, ?_, ?_, ?_⟩
  · intro h0
    simp [endPollQuorum, h0]
  · intro hsh a ha h0
    simp [endPollQuorum, hsh, ha, h0]
  · intro hsh ha
    simp [endPollQuorum, hsh, ha]
  · intro hsh ha hle h0
    simp [endPollQuorum, hsh, ha, h0, Nat.not_lt.mpr hle]
  · intro hsh ha hle h0
    simp [endPollQuorum, hsh, ha, h0, Nat.not_lt.mpr hle]
  · intro hsh ha hlt
    simp [endPollQuorum, hsh, ha, hlt]

/-- The poll of the C8 counterexample: a snapshotted reference weight of
zero while the global total share is nonzero. -/
def c8Poll : Poll :=
  { id := 1, creator := "alice", status := .InProgress, yes_votes := 0,
    no_votes := 0, end_height := 50, title := "t", description := "d",
    link := none, execute_data := none, deposit_amount := 0,
    total_balance_at_end_poll := none, staked_amount := some 0 }

/-- Storage for the C8 counterexample. -/
def c8Storage : Storage :=
  { config := witConfig,
    state := { contract_addr := "gov", poll_count := 1, total_share := 1,
               total_deposit := 0 },
    polls := fun id => if id = 1 then some c8Poll else none,
    poll_indexer := fun _ _ => false,
    poll_voter := fun _ _ => none,
    bank := fun _ => none }

/-- Counterexample to C8 as stated: with a snapshotted `staked_amount` of
zero and a nonzero total share, `end_poll` aborts with the division panic
of `Decimal::from_ratio` instead of evaluating the quorum to zero. -/
theorem end_poll_zero_reference_aborts :
    c8Storage.state.total_share ≠ 0 ∧
    c8Poll.staked_amount = some 0 ∧
    endPollRaw 210 c8Storage ⟨50⟩ 1 =
      (c8Storage, .error (.panic "Denominator must not be zero")) :=
  ⟨by decide, rfl, rfl⟩

/-- Witness for C8 (amended): the snapshot branch with a nonzero snapshot
divides the tallied weight by the snapshot. -/
theorem end_poll_quorum_reference_witness :
    endPollQuorum 210 c1Storage.state c1Poll =
      .ok (ratioToDecimal (c1Poll.yes_votes + c1Poll.no_votes) 200, 200) :=
  (end_poll_quorum_reference 210 c1Storage.state c1Poll).2.1 (by decide) 200 rfl
    (by decide)

/-- C2: failed lifecycle operations leave the stores untouched.  For
Create, Vote and End the function body itself performs no write before any
error return; for Execute the index/status writes precede the
`NoExecuteData` check, and the transactional boundary (`tx`) reverts them,
so observably an `ExecutePoll` on a `Passed` poll without an action list
fails with `NoExecuteData` and leaves the whole storage — poll status and
both indexes included — unchanged. -/
theorem lifecycle_error_atomicity :
    (∀ (s : Storage) (env : Env) (proposer : Addr) (dep : Nat)
       (title desc : String) (link : Option String)
       (msgs : Option (List PollExecuteMsg)) (e : ContractError),
       (createPollRaw s env proposer dep title desc link msgs).2 = .error e →
       (createPollRaw s env proposer dep title desc link msgs).1 = s) ∧
    (∀ (oracleBalance : Nat) (s : Storage) (env : Env) (sender : Addr)
       (poll_id : Nat) (vote : VoteOption) (amount : Nat) (e : ContractError),
       (castVoteRaw oracleBalance s env sender poll_id vote amount).2 = .error e →
       (castVoteRaw oracleBalance s env sender poll_id vote amount).1 = s) ∧
    (∀ (oracleBalance : Nat) (s : Storage) (env : Env) (poll_id : Nat)
       (e : ContractError),
       (endPollRaw oracleBalance s env poll_id).2 = .error e →
       (endPollRaw oracleBalance s env poll_id).1 = s) ∧
    (∀ (s : Storage) (env : Env) (poll_id : Nat) (e : ContractError),
       (tx (fun st => executePollRaw st env poll_id) s).2 = .error e →
       (tx (fun st => executePollRaw st env poll_id) s).1 = s) ∧
    (∀ (s : Storage) (env : Env) (poll_id : Nat) (p : Poll),
       s.polls poll_id = some p → p.status = .Passed →
       p.execute_data = none →
       p.end_height + s.config.timelock_period ≤ env.height →
       tx (fun st => executePollRaw st env poll_id) s =
         (s, .error .NoExecuteData)) := by
  refine ⟨?_, ?_, ?_, ?_, ?_⟩
  · intro s env proposer dep title desc link msgs e
    dsimp only [createPollRaw]
    repeat' split
    all_goals intro h
    all_goals first | rfl | simp at h
  · intro oracleBalance s env sender poll_id vote amount e
    dsimp only [castVoteRaw]
    repeat' split
    all_goals intro h
    all_goals first | rfl | simp at h
  · intro oracleBalance s env poll_id e
    dsimp only [endPollRaw]
    repeat' split
    all_goals intro h
    all_goals first | rfl | simp at h
  · intro s env poll_id e
    dsimp only [tx]
    split
    · intro h; simp at h
    · intro _; rfl
  · intro s env poll_id p hp hst hdata hh
    have hraw : (executePollRaw s env poll_id).2 = .error .NoExecuteData := by
      dsimp only [executePollRaw]
      rw [hp]
      dsimp only
      simp only [hst, ne_eq, not_true_eq_false, if_false, Nat.not_lt.mpr hh, hdata]
    unfold tx
    dsimp only
    rcases hE : executePollRaw s env poll_id with ⟨s3, r⟩
    rw [hE] at hraw
    dsimp only at hraw
    subst hraw
    rfl

/-- The poll of the C5 counterexample and the C2 witness: a `Passed` poll
without an action list. -/
def c5Poll : Poll :=
  { id := 1, creator := "alice", status := .Passed, yes_votes := 70,
    no_votes := 30, end_height := 50, title := "t", description := "d",
    link := none, execute_data := none, deposit_amount := 10,
    total_balance_at_end_poll := some 200, staked_amount := some 200 }

/-- Storage holding the actionless `Passed` poll. -/
def c5Storage : Storage :=
  { config := witConfig,
    state := { contract_addr := "gov", poll_count := 1, total_share := 100,
               total_deposit := 0 },
    polls := fun id => if id = 1 then some c5Poll else none,
    poll_indexer := fun st id => st = .Passed && id = 1,
    poll_voter := fun _ _ => none,
    bank := fun _ => none }

/-- Witness for C2: a Create with an insufficient deposit leaves the
storage unchanged, and an Execute of a `Passed` poll without actions
fails with `NoExecuteData` with the whole storage unchanged. -/
theorem lifecycle_error_atomicity_witness :
    (createPollRaw c5Storage ⟨10⟩ "alice" 1 "t" "d" none none).1 = c5Storage ∧
    tx (fun st => executePollRaw st ⟨60⟩ 1) c5Storage =
      (c5Storage, .error .NoExecuteData) :=
  ⟨lifecycle_error_atomicity.1 c5Storage ⟨10⟩ "alice" 1 "t" "d" none none
     (.InsufficientProposalDeposit 5) rfl,
   lifecycle_error_atomicity.2.2.2.2 c5Storage ⟨60⟩ 1 c5Poll rfl rfl rfl
     (by decide)⟩

/-- Counterexample to C5 as stated: a `Passed` poll with no action list, at
a height past the timelock, does not succeed — it fails with
`NoExecuteData` (so such a poll can never be executed). -/
theorem execute_poll_no_actions_counterexample :
    c5Poll.status = .Passed ∧
    c5Poll.end_height + c5Storage.config.timelock_period ≤ (60 : Nat) ∧
    tx (fun st => executePollRaw st ⟨60⟩ 1) c5Storage =
      (c5Storage, .error .NoExecuteData) :=
  ⟨rfl, by decide, rfl⟩

/-- C5 (amended): `ExecutePoll` on a non-`Passed` poll fails with
`PollNotPassed`; on a `Passed` poll before `end_height + timelock_period`
it fails with `TimelockNotExpired`; at or after that height, provided the
poll has an action list, it succeeds exactly once — status becomes
`Executed`, the poll moves from the Passed index to the Executed index,
and every later `ExecutePoll` on the same poll fails with
`PollNotPassed`. -/
theorem execute_poll_timelock_execute_once :
    (∀ (s : Storage) (env : Env) (poll_id : Nat) (p : Poll),
       s.polls poll_id = some p → p.status ≠ .Passed →
       tx (fun st => executePollRaw st env poll_id) s =
         (s, .error .PollNotPassed)) ∧
    (∀ (s : Storage) (env : Env) (poll_id : Nat) (p : Poll),
       s.polls poll_id = some p → p.status = .Passed →
       env.height < p.end_height + s.config.timelock_period →
       tx (fun st => executePollRaw st env poll_id) s =
         (s, .error .TimelockNotExpired)) ∧
    (∀ (s : Storage) (env : Env) (poll_id : Nat) (p : Poll)
       (l : List ExecuteData),
       s.polls poll_id = some p → p.status = .Passed →
       p.end_height + s.config.timelock_period ≤ env.height →
       p.execute_data = some l →
       ∃ s2 resp,
         tx (fun st => executePollRaw st env poll_id) s = (s2, .ok resp) ∧
         (s2.polls poll_id).map Poll.status = some .Executed ∧
         s2.poll_indexer .Passed poll_id = false ∧
         s2.poll_indexer .Executed poll_id = true ∧
         (∀ env2 : Env, tx (fun st => executePollRaw st env2 poll_id) s2 =
            (s2, .error .PollNotPassed))) := by
  have notPassed : ∀ (s : Storage) (env : Env) (poll_id : Nat) (p : Poll),
      s.polls poll_id = some p → p.status ≠ .Passed →
      tx (fun st => executePollRaw st env poll_id) s =
        (s, .error .PollNotPassed) := by
    intro s env poll_id p hp hst
    have hraw : executePollRaw s env poll_id = (s, .error .PollNotPassed) := by
      dsimp only [executePollRaw]
      rw [hp]
      dsimp only
      rw [if_pos hst]
    unfold tx
    dsimp only
    rw [hraw]
  refine ⟨notPassed, ?_, ?_⟩
  · intro s env poll_id p hp hst hlt
    have hraw : executePollRaw s env poll_id = (s, .error .TimelockNotExpired) := by
      dsimp only [executePollRaw]
      rw [hp]
      dsimp only
      simp only [hst, ne_eq, not_true_eq_false, if_false, if_pos hlt]
    unfold tx
    dsimp only
    rw [hraw]
  · intro s env poll_id p l hp hst hh hdata
    have hraw : executePollRaw s env poll_id =
        ((((s.pollIndexerRemove .Passed poll_id).pollIndexerSave .Executed
             poll_id).pollSave poll_id { p with status := PollStatus.Executed }),
         .ok { messages := (sortExecuteData l).map fun m =>
                 ({ contract_addr := m.contract, msg := .raw m.msg,
                    funds := [] } : WasmExec)
               attributes := [("action", "execute_poll"),
                              ("poll_id", toString poll_id)] }) := by
      dsimp only [executePollRaw]
      rw [hp]
      dsimp only
      simp only [hst, ne_eq, not_true_eq_false, if_false, Nat.not_lt.mpr hh, hdata]
    unfold tx
    dsimp only
    rw [hraw]
    refine ⟨_, _, rfl, ?_, ?_, ?_, ?_⟩
    · simp [Storage.pollSave]
    · simp [Storage.pollSave, Storage.pollIndexerSave, Storage.pollIndexerRemove]
    · simp [Storage.pollSave, Storage.pollIndexerSave, Storage.pollIndexerRemove]
    · intro env2
      exact notPassed _ env2 poll_id { p with status := PollStatus.Executed }
        (by simp [Storage.pollSave]) (by simp)

/-- The poll of the C5 witness: `Passed` with a two-entry action list. -/
def c5bPoll : Poll :=
  { id := 1, creator := "alice", status := .Passed, yes_votes := 70,
    no_votes := 30, end_height := 50, title := "t", description := "d",
    link := none,
    execute_data := some [⟨2, "x", "m2"⟩, ⟨1, "y", "m1"⟩],
    deposit_amount := 10, total_balance_at_end_poll := some 200,
    staked_amount := some 200 }

/-- Storage holding the executable `Passed` poll. -/
def c5bStorage : Storage :=
  { config := witConfig,
    state := { contract_addr := "gov", poll_count := 1, total_share := 100,
               total_deposit := 0 },
    polls := fun id => if id = 1 then some c5bPoll else none,
    poll_indexer := fun st id => st = .Passed && id = 1,
    poll_voter := fun _ _ => none,
    bank := fun _ => none }

/-- Witness for C5 (amended): a non-`Passed` poll is rejected with
`PollNotPassed`; before height 60 the timelock blocks execution; at height
60 execution succeeds, the poll becomes `Executed`, the indexes move, and
a second call fails with `PollNotPassed`. -/
theorem execute_poll_timelock_execute_once_witness :
    tx (fun st => executePollRaw st ⟨60⟩ 1) c1Storage =
      (c1Storage, .error .PollNotPassed) ∧
    tx (fun st => executePollRaw st ⟨59⟩ 1) c5bStorage =
      (c5bStorage, .error .TimelockNotExpired) ∧
    ∃ s2 resp,
      tx (fun st => executePollRaw st ⟨60⟩ 1) c5bStorage = (s2, .ok resp) ∧
      (s2.polls 1).map Poll.status = some .Executed ∧
      s2.poll_indexer .Passed 1 = false ∧
      s2.poll_indexer .Executed 1 = true ∧
      (∀ env2 : Env, tx (fun st => executePollRaw st env2 1) s2 =
         (s2, .error .PollNotPassed)) :=
  ⟨execute_poll_timelock_execute_once.1 c1Storage ⟨60⟩ 1 c1Poll rfl (by decide),
   execute_poll_timelock_execute_once.2.1 c5bStorage ⟨59⟩ 1 c5bPoll rfl rfl
     (by decide),
   execute_poll_timelock_execute_once.2.2 c5bStorage ⟨60⟩ 1 c5bPoll
     [⟨2, "x", "m2"⟩, ⟨1, "y", "m1"⟩] rfl rfl (by decide) rfl⟩

lemma insertByOrder_perm (a : ExecuteData) :
    ∀ l : List ExecuteData, (insertByOrder a l).Perm (a :: l)
  | [] => List.Perm.refl _
  | b :: l => by
      dsimp only [insertByOrder]
      split
      · exact List.Perm.refl _
      · exact ((insertByOrder_perm a l).cons b).trans (List.Perm.swap a b l)

lemma sortExecuteData_perm : ∀ l : List ExecuteData, (sortExecuteData l).Perm l
  | [] => List.Perm.refl _
  | a :: l =>
      (insertByOrder_perm a (sortExecuteData l)).trans
        ((sortExecuteData_perm l).cons a)

lemma insertByOrder_pairwise (a : ExecuteData) (l : List ExecuteData)
    (h : l.Pairwise fun x y => x.order ≤ y.order) :
    (insertByOrder a l).Pairwise fun x y => x.order ≤ y.order := by
  induction l with
  | nil => simp [insertByOrder]
  | cons b l ih =>
      rw [List.pairwise_cons] at h
      obtain ⟨hb, hl⟩ := h
      dsimp only [insertByOrder]
      split
      next hab =>
        refine List.pairwise_cons.mpr ⟨?_, List.pairwise_cons.mpr ⟨hb, hl⟩⟩
        intro x hx
        rcases List.mem_cons.mp hx with hx | hx
        · rw [hx]; exact hab
        · exact le_trans hab (hb x hx)
      next hab =>
        have hba : b.order ≤ a.order := le_of_not_le hab
        refine List.pairwise_cons.mpr ⟨?_, ih hl⟩
        intro x hx
        have hmem : x = a ∨ x ∈ l := by
          have hx2 := (insertByOrder_perm a l).mem_iff.mp hx
          simpa using hx2
        rcases hmem with hx2 | hx2
        · rw [hx2]; exact hba
        · exact hb x hx2

lemma sortExecuteData_pairwise :
    ∀ l : List ExecuteData,
      (sortExecuteData l).Pairwise fun x y => x.order ≤ y.order
  | [] => List.Pairwise.nil
  | a :: l => insertByOrder_pairwise a _ (sortExecuteData_pairwise l)

lemma insertByOrder_filter (a : ExecuteData) (l : List ExecuteData) (k : Nat) :
    (insertByOrder a l).filter (fun m => m.order == k) =
      (if a.order = k then [a] else []) ++ l.filter (fun m => m.order == k) := by
  induction l with
  | nil =>
      dsimp only [insertByOrder]
      by_cases h : a.order = k <;> simp [h]
  | cons b l ih =>
      dsimp only [insertByOrder]
      split
      next hab =>
        by_cases h : a.order = k <;> simp [List.filter_cons, h]
      next hab =>
        have hba : b.order < a.order := Nat.lt_of_not_le hab
        simp only [List.filter_cons, ih]
        by_cases h : a.order = k
        · have hbk : ¬ b.order = k := by omega
          simp [h, hbk]
        · by_cases hbk : b.order = k <;> simp [h, hbk]

lemma sortExecuteData_filter (l : List ExecuteData) (k : Nat) :
    (sortExecuteData l).filter (fun m => m.order == k) =
      l.filter (fun m => m.order == k) := by
  induction l with
  | nil => rfl
  | cons a l ih =>
      dsimp only [sortExecuteData]
      rw [insertByOrder_filter, ih, List.filter_cons]
      by_cases h : a.order = k <;> simp [h]

/-- C7 (spec-modelled ordering): executing a `Passed` poll with an action
list succeeds and emits exactly one dispatch message per action entry,
following the stable ascending sort of the entries by their `order` field:
the emitted list is the mapped sorted list, the sorted list is a
permutation of the original (one dispatch per entry), its `order` fields
are ascending, and entries with equal `order` keep their original relative
list order; every dispatch targets its entry's contract with the entry's
opaque payload and no funds. -/
theorem execute_poll_dispatch_order (s : Storage) (env : Env) (poll_id : Nat)
    (p : Poll) (l : List ExecuteData)
    (hp : s.polls poll_id = some p)
    (hst : p.status = .Passed)
    (hh : p.end_height + s.config.timelock_period ≤ env.height)
    (hdata : p.execute_data = some l) :
    ∃ s2 resp,
      tx (fun st => executePollRaw st env poll_id) s = (s2, .ok resp) ∧
      resp.messages = (sortExecuteData l).map (fun m =>
        ({ contract_addr := m.contract, msg := .raw m.msg,
           funds := [] } : WasmExec)) ∧
      (sortExecuteData l).Perm l ∧
      ((sortExecuteData l).Pairwise fun x y => x.order ≤ y.order) ∧
      (∀ k, (sortExecuteData l).filter (fun m => m.order == k) =
            l.filter (fun m => m.order == k)) := by
  have hraw : executePollRaw s env poll_id =
      ((((s.pollIndexerRemove .Passed poll_id).pollIndexerSave .Executed
           poll_id).pollSave poll_id { p with status := PollStatus.Executed }),
       .ok { messages := (sortExecuteData l).map fun m =>
               ({ contract_addr := m.contract, msg := .raw m.msg,
                  funds := [] } : WasmExec)
             attributes := [("action", "execute_poll"),
                            ("poll_id", toString poll_id)] }) := by
    dsimp only [executePollRaw]
    rw [hp]
    dsimp only
    simp only [hst, ne_eq, not_true_eq_false, if_false, Nat.not_lt.mpr hh, hdata]
  unfold tx
  dsimp only
  rw [hraw]
  exact ⟨_, _, rfl, rfl, sortExecuteData_perm l, sortExecuteData_pairwise l,
    fun k => sortExecuteData_filter l k⟩

/-- The poll of the C7 witness: action orders `[3, 1, 2]`. -/
def c7Poll : Poll :=
  { id := 1, creator := "alice", status := .Passed, yes_votes := 70,
    no_votes := 30, end_height := 50, title := "t", description := "d",
    link := none,
    execute_data := some [⟨3, "a", "m3"⟩, ⟨1, "b", "m1"⟩, ⟨2, "c", "m2"⟩],
    deposit_amount := 10, total_balance_at_end_poll := some 200,
    staked_amount := some 200 }

/-- Storage for the C7 witness. -/
def c7Storage : Storage :=
  { config := witConfig,
    state := { contract_addr := "gov", poll_count := 1, total_share := 100,
               total_deposit := 0 },
    polls := fun id => if id = 1 then some c7Poll else none,
    poll_indexer := fun st id => st = .Passed && id = 1,
    poll_voter := fun _ _ => none,
    bank := fun _ => none }

/-- Witness for C7: a `[3, 1, 2]` action list is dispatched in the order
`[1, 2, 3]`. -/
theorem execute_poll_dispatch_order_witness :
    ∃ s2 resp,
      tx (fun st => executePollRaw st ⟨60⟩ 1) c7Storage = (s2, .ok resp) ∧
      resp.messages =
        [{ contract_addr := "b", msg := .raw "m1", funds := [] },
         { contract_addr := "c", msg := .raw "m2", funds := [] },
         { contract_addr := "a", msg := .raw "m3", funds := [] }] := by
  obtain ⟨s2, resp, h1, h2, h3, h4, h5⟩ :=
    execute_poll_dispatch_order c7Storage ⟨60⟩ 1 c7Poll
      [⟨3, "a", "m3"⟩, ⟨1, "b", "m1"⟩, ⟨2, "c", "m2"⟩] rfl rfl (by decide) rfl
  refine ⟨s2, resp, h1, ?_⟩
  rw [h2]
  rfl

/-- C4: the Vote preconditions are checked in order, each failure
returning its error with the storage unchanged: `PollNotFound` when the
poll id is zero or beyond the counter; then `PollNotInProgress` when the
poll is not `InProgress` or the height has passed `end_height`; then
`AlreadyVoted` when a `VoterInfo` already exists for this (poll, voter)
pair — for any choice and weight; then `InsufficientStaked` when the
voter's convertible balance `share * (oracle - total_deposit) /
total_share` is below the committed weight. -/
theorem cast_vote_precondition_order :
    (∀ (oracleBalance : Nat) (s : Storage) (env : Env) (sender : Addr)
       (poll_id : Nat) (vote : VoteOption) (amount : Nat),
       poll_id = 0 ∨ s.state.poll_count < poll_id →
       castVoteRaw oracleBalance s env sender poll_id vote amount =
         (s, .error .PollNotFound)) ∧
    (∀ (oracleBalance : Nat) (s : Storage) (env : Env) (sender : Addr)
       (poll_id : Nat) (vote : VoteOption) (amount : Nat) (p : Poll),
       ¬ (poll_id = 0 ∨ s.state.poll_count < poll_id) →
       s.polls poll_id = some p →
       p.status ≠ .InProgress ∨ p.end_height < env.height →
       castVoteRaw oracleBalance s env sender poll_id vote amount =
         (s, .error .PollNotInProgress)) ∧
    (∀ (oracleBalance : Nat) (s : Storage) (env : Env) (sender : Addr)
       (poll_id : Nat) (vote : VoteOption) (amount : Nat) (p : Poll)
       (vi : VoterInfo),
       ¬ (poll_id = 0 ∨ s.state.poll_count < poll_id) →
       s.polls poll_id = some p →
       p.status = .InProgress → env.height ≤ p.end_height →
       s.poll_voter poll_id sender = some vi →
       castVoteRaw oracleBalance s env sender poll_id vote amount =
         (s, .error .AlreadyVoted)) ∧
    (∀ (oracleBalance : Nat) (s : Storage) (env : Env) (sender : Addr)
       (poll_id : Nat) (vote : VoteOption) (amount : Nat) (p : Poll),
       ¬ (poll_id = 0 ∨ s.state.poll_count < poll_id) →
       s.polls poll_id = some p →
       p.status = .InProgress → env.height ≤ p.end_height →
       s.poll_voter poll_id sender = none →
       s.state.total_deposit ≤ oracleBalance →
       s.state.total_share ≠ 0 →
       ((s.bank sender).getD TokenManager.empty).share *
           (oracleBalance - s.state.total_deposit) / s.state.total_share <
         amount →
       castVoteRaw oracleBalance s env sender poll_id vote amount =
         (s, .error .InsufficientStaked)) := by
  refine ⟨?_, ?_, ?_, ?_⟩
  · intro oracleBalance s env sender poll_id vote amount h
    dsimp only [castVoteRaw]
    rw [if_pos h]
  · intro oracleBalance s env sender poll_id vote amount p h1 hp h2
    dsimp only [castVoteRaw]
    rw [if_neg h1, hp]
    dsimp only
    rw [if_pos h2]
  · intro oracleBalance s env sender poll_id vote amount p vi h1 hp hst hh hv
    dsimp only [castVoteRaw]
    rw [if_neg h1, hp]
    dsimp only
    rw [if_neg (not_or.mpr ⟨fun hc => hc hst, Nat.not_lt.mpr hh⟩)]
    simp only [hv, Option.isSome_some, if_true]
  · intro oracleBalance s env sender poll_id vote amount p h1 hp hst hh hv hor
      hsh hlt
    dsimp only [castVoteRaw]
    rw [if_neg h1, hp]
    dsimp only
    rw [if_neg (not_or.mpr ⟨fun hc => hc hst, Nat.not_lt.mpr hh⟩)]
    simp only [hv, Option.isSome_none, Bool.false_eq_true, if_false]
    rw [if_neg (Nat.not_lt.mpr hor), if_neg hsh, if_pos hlt]

/-- The poll of the C4 witness. -/
def c4Poll : Poll :=
  { id := 1, creator := "alice", status := .InProgress, yes_votes := 0,
    no_votes := 0, end_height := 50, title := "t", description := "d",
    link := none, execute_data := none, deposit_amount := 10,
    total_balance_at_end_poll := none, staked_amount := none }

/-- Storage for the C4 witness: carol has already voted on poll 1, bob
holds 10 shares. -/
def c4Storage : Storage :=
  { config := witConfig,
    state := { contract_addr := "gov", poll_count := 1, total_share := 100,
               total_deposit := 10 },
    polls := fun id => if id = 1 then some c4Poll else none,
    poll_indexer := fun _ _ => false,
    poll_voter := fun id v =>
      if id = 1 ∧ v = "carol" then some ⟨.Yes, 5⟩ else none,
    bank := fun a =>
      if a = "bob" then some { share := 10, locked_balance := [] } else none }

/-- Witness for C4: the four precondition failures at concrete inputs —
unknown poll id 2, vote after `end_height`, carol voting twice, and bob
committing 100 against a convertible balance of 20. -/
theorem cast_vote_precondition_order_witness :
    castVoteRaw 210 c4Storage ⟨40⟩ "bob" 2 .Yes 5 =
      (c4Storage, .error .PollNotFound) ∧
    castVoteRaw 210 c4Storage ⟨60⟩ "bob" 1 .Yes 5 =
      (c4Storage, .error .PollNotInProgress) ∧
    castVoteRaw 210 c4Storage ⟨40⟩ "carol" 1 .No 7 =
      (c4Storage, .error .AlreadyVoted) ∧
    castVoteRaw 210 c4Storage ⟨40⟩ "bob" 1 .Yes 100 =
      (c4Storage, .error .InsufficientStaked) :=
  ⟨cast_vote_precondition_order.1 210 c4Storage ⟨40⟩ "bob" 2 .Yes 5
     (by decide),
   cast_vote_precondition_order.2.1 210 c4Storage ⟨60⟩ "bob" 1 .Yes 5 c4Poll
     (by decide) rfl (by decide),
   cast_vote_precondition_order.2.2.1 210 c4Storage ⟨40⟩ "carol" 1 .No 7
     c4Poll ⟨.Yes, 5⟩ (by decide) rfl rfl (by decide) rfl,
   cast_vote_precondition_order.2.2.2 210 c4Storage ⟨40⟩ "bob" 1 .Yes 100
     c4Poll (by decide) rfl rfl (by decide) rfl (by decide) (by decide)
     (by decide)⟩

/-- C6: a successful vote sets the poll's `staked_amount` snapshot to the
convertible total balance (oracle balance minus total deposit) exactly when
the poll is inside the snapshot window (`end_height - height <
snapshot_period`) and no snapshot is present yet; otherwise — in
particular whenever a snapshot is already set — the snapshot is left
unchanged. -/
theorem cast_vote_snapshot_once (oracleBalance : Nat) (s : Storage) (env : Env)
    (sender : Addr) (poll_id : Nat) (vote : VoteOption) (amount : Nat)
    (p : Poll) (s2 : Storage) (resp : Response)
    (hp : s.polls poll_id = some p)
    (h : castVoteRaw oracleBalance s env sender poll_id vote amount =
      (s2, .ok resp)) :
    (s2.polls poll_id).map Poll.staked_amount =
      some (if p.end_height - env.height < s.config.snapshot_period ∧
               p.staked_amount = none
            then some (oracleBalance - s.state.total_deposit)
            else p.staked_amount) := by
  dsimp only [castVoteRaw] at h
  split at h
  · simp [Prod.ext_iff] at h
  rw [hp] at h
  dsimp only at h
  split at h
  · simp [Prod.ext_iff] at h
  split at h
  · simp [Prod.ext_iff] at h
  split at h
  · simp [Prod.ext_iff] at h
  split at h
  · simp [Prod.ext_iff] at h
  split at h
  · simp [Prod.ext_iff] at h
  rw [Prod.mk.injEq] at h
  obtain ⟨hs2, hresp⟩ := h
  rw [Except.ok.injEq] at hresp
  subst hs2
  subst hresp
  by_cases hv : vote = VoteOption.Yes <;>
    by_cases hc : p.end_height - env.height < s.config.snapshot_period ∧
      p.staked_amount = none <;>
    simp [hv, hc, Storage.pollSave, Storage.pollVoterSave, Storage.bankSave]

/-- The poll of the C6/C10 witness: no snapshot yet, inside the window. -/
def c6Poll : Poll :=
  { id := 1, creator := "alice", status := .InProgress, yes_votes := 0,
    no_votes := 0, end_height := 50, title := "t", description := "d",
    link := none, execute_data := none, deposit_amount := 10,
    total_balance_at_end_poll := none, staked_amount := none }

/-- Storage for the C6/C10 witness. -/
def c6Storage : Storage :=
  { config := witConfig,
    state := { contract_addr := "gov", poll_count := 1, total_share := 100,
               total_deposit := 10 },
    polls := fun id => if id = 1 then some c6Poll else none,
    poll_indexer := fun _ _ => false,
    poll_voter := fun _ _ => none,
    bank := fun a =>
      if a = "bob" then some { share := 10, locked_balance := [] } else none }

/-- The concrete response of bob's vote in the C6/C10 witness. -/
def c6Resp : Response :=
  { messages := [],
    attributes := [("action", "cast_vote"), ("poll_id", "1"), ("amount", "5"),
                   ("voter", "bob"), ("vote_option", "yes")] }

/-- Witness for C6: bob's vote at height 40 (10 blocks before the end,
inside the 20-block window) snapshots the convertible balance 200. -/
theorem cast_vote_snapshot_once_witness :
    ((castVoteRaw 210 c6Storage ⟨40⟩ "bob" 1 .Yes 5).1.polls 1).map
        Poll.staked_amount = some (some 200) := by
  have h := cast_vote_snapshot_once 210 c6Storage ⟨40⟩ "bob" 1 .Yes 5 c6Poll
    (castVoteRaw 210 c6Storage ⟨40⟩ "bob" 1 .Yes 5).1 c6Resp rfl rfl
  rw [h]
  decide

/-- C10: a successful vote is frame-correct — the `Config` and global
`State` singletons and the whole status index are unchanged, every poll
other than the voted one is unchanged, every other (poll, voter) entry and
every other account's bank record are unchanged, and the only writes are
the voted poll, the new `VoterInfo` for this (poll, voter) pair, and the
voter's bank record with the `(poll_id, VoterInfo)` entry appended to its
locked-balance ledger (its share untouched). -/
theorem cast_vote_frame (oracleBalance : Nat) (s : Storage) (env : Env)
    (sender : Addr) (poll_id : Nat) (vote : VoteOption) (amount : Nat)
    (p : Poll) (s2 : Storage) (resp : Response)
    (hp : s.polls poll_id = some p)
    (h : castVoteRaw oracleBalance s env sender poll_id vote amount =
      (s2, .ok resp)) :
    s2.config = s.config ∧
    s2.state = s.state ∧
    s2.poll_indexer = s.poll_indexer ∧
    (∀ id2, id2 ≠ poll_id → s2.polls id2 = s.polls id2) ∧
    (∀ id2 v2, ¬ (id2 = poll_id ∧ v2 = sender) →
       s2.poll_voter id2 v2 = s.poll_voter id2 v2) ∧
    (∀ a2, a2 ≠ sender → s2.bank a2 = s.bank a2) ∧
    s2.poll_voter poll_id sender = some { vote := vote, balance := amount } ∧
    s2.bank sender =
      some { share := ((s.bank sender).getD TokenManager.empty).share,
             locked_balance :=
               ((s.bank sender).getD TokenManager.empty).locked_balance ++
                 [(poll_id, { vote := vote, balance := amount })] } := by
  dsimp only [castVoteRaw] at h
  split at h
  · simp [Prod.ext_iff] at h
  rw [hp] at h
  dsimp only at h
  split at h
  · simp [Prod.ext_iff] at h
  split at h
  · simp [Prod.ext_iff] at h
  split at h
  · simp [Prod.ext_iff] at h
  split at h
  · simp [Prod.ext_iff] at h
  split at h
  · simp [Prod.ext_iff] at h
  rw [Prod.mk.injEq] at h
  obtain ⟨hs2, hresp⟩ := h
  rw [Except.ok.injEq] at hresp
  subst hs2
  subst hresp
  refine ⟨?_, ?_, ?_, ?_, ?_, ?_, ?_, ?_⟩
  · simp [Storage.pollSave, Storage.pollVoterSave, Storage.bankSave]
  · simp [Storage.pollSave, Storage.pollVoterSave, Storage.bankSave]
  · simp [Storage.pollSave, Storage.pollVoterSave, Storage.bankSave]
  · intro id2 hne
    simp [Storage.pollSave, Storage.pollVoterSave, Storage.bankSave, hne]
  · intro id2 v2 hne
    simp [Storage.pollSave, Storage.pollVoterSave, Storage.bankSave, hne]
  · intro a2 hne
    simp [Storage.pollSave, Storage.pollVoterSave, Storage.bankSave, hne]
  · simp [Storage.pollSave, Storage.pollVoterSave, Storage.bankSave]
  · simp [Storage.pollSave, Storage.pollVoterSave, Storage.bankSave]

/-- Witness for C10: bob's vote leaves the global state untouched, records
his `VoterInfo`, and appends the locked-balance entry to his bank record. -/
theorem cast_vote_frame_witness :
    (castVoteRaw 210 c6Storage ⟨40⟩ "bob" 1 .Yes 5).1.state = c6Storage.state ∧
    (castVoteRaw 210 c6Storage ⟨40⟩ "bob" 1 .Yes 5).1.poll_voter 1 "bob" =
      some { vote := .Yes, balance := 5 } ∧
    (castVoteRaw 210 c6Storage ⟨40⟩ "bob" 1 .Yes 5).1.bank "bob" =
      some { share := 10,
             locked_balance := [(1, { vote := .Yes, balance := 5 })] } := by
  obtain ⟨h1, h2, h3, h4, h5, h6, h7, h8⟩ :=
    cast_vote_frame 210 c6Storage ⟨40⟩ "bob" 1 .Yes 5 c6Poll
      (castVoteRaw 210 c6Storage ⟨40⟩ "bob" 1 .Yes 5).1 c6Resp rfl rfl
  refine ⟨h2, h7, ?_⟩
  rw [h8]
  rfl

end Gov
